import Mathlib

/-
  Shallow embedding of the SLATE API server's cluster-management core
  (ClusterCommands.cpp, Entities.cpp) together with a model of the
  PersistentStore interface it uses.  Store operations whose
  implementation is not part of this repository snapshot are modelled
  from the specification and marked as such in their doc comments.
-/

namespace Slate

/-! ## Basic entities (Entities.h / Entities.cpp) -/

structure User where
  id : String
  admin : Bool
  valid : Bool
deriving Repr, DecidableEq

structure Group where
  id : String
  name : String
deriving Repr, DecidableEq

structure Cluster where
  id : String
  name : String
  owningGroup : String
  owningOrganization : String
  config : String
  systemNamespace : String
deriving Repr, DecidableEq

structure ApplicationInstance where
  id : String
  name : String
  owningGroup : String
  cluster : String
deriving Repr, DecidableEq

structure Secret where
  id : String
  name : String
  group : String
  cluster : String
deriving Repr, DecidableEq

structure GeoLocation where
  lat : Int
  lon : Int
deriving Repr, DecidableEq

/-- Modelled from the spec: the per-Group Kubernetes namespace name is
`<namespacePrefix><group-name>` (Entities.h, `Group::namespacePrefix`, is
not part of this snapshot; the concrete constant is immaterial to the
claims). -/
def namespacePfx : String := "slate-group-"

/-- Source: `Group::namespaceName()` returns the namespace prefix
followed by the group name. -/
def Group.namespaceName (g : Group) : String := namespacePfx ++ g.name

/-! ## String utilities (Utilities.h)

`string_split_lines` and `string_split_columns` are declared in
Utilities.h; their implementation file is not in this snapshot, so they
are modelled from the header's doc comments: split at the delimiter,
removing all delimiter instances, with `keepEmpty` controlling whether
empty tokens are produced. -/

/-- Split a character list at every delimiter (kernel-reducible
counterpart of `String.split`): `"a,b"` gives `["a","b"]`, a leading,
trailing or doubled delimiter gives empty groups, and the empty input
gives one empty group. -/
def splitChars (p : Char → Bool) : List Char → List (List Char)
  | [] => [[]]
  | c :: rest =>
    match splitChars p rest with
    | [] => [[]] -- unreachable: the result is never empty
    | grp :: groups =>
      if p c then [] :: grp :: groups else (c :: grp) :: groups

def string_split_lines (text : String) : List String :=
  (splitChars (· = '\n') text.toList).map String.mk

def string_split_columns (line : String) (delim : Char) (keepEmpty : Bool) :
    List String :=
  let parts := (splitChars (· = delim) line.toList).map String.mk
  if keepEmpty then parts else parts.filter (· ≠ "")

/-- C++ `s.find(pat) != std::string::npos`: substring containment. -/
def strContains (s pat : String) : Bool :=
  (List.range (s.toList.length + 1)).any
    (fun i => pat.toList.isPrefixOf (s.toList.drop i))

/-- C++ `s.find(pat) == 0`: the string starts with the pattern. -/
def strStarts (s pat : String) : Bool :=
  pat.toList.isPrefixOf s.toList

/-! ## External command results (ProcessHandling / KubeInterface) -/

/-- Result of running an external program: exit status, stdout, stderr. -/
structure CommandResult where
  status : Nat
  output : String
  error : String
deriving Repr, DecidableEq

/-! ## PersistentStore model

The PersistentStore implementation is not part of this snapshot (only
its callers are), so the store is modelled from the spec: plain lists of
records with the lookup, listing, edit and cache operations the cluster
commands use.  All operations are total and deterministic. -/

structure PersistentStore where
  groups : List Group
  clusters : List Cluster
  instances : List ApplicationInstance
  secrets : List Secret
  /-- membership relation: (userID, groupID) pairs -/
  memberships : List (String × String)
  /-- Group↔Cluster access grants: (groupID, clusterID) pairs -/
  clusterAccess : List (String × String)
  /-- cluster reachability cache: (clusterID, value, expiry time) -/
  reachability : List (String × Bool × Nat)
deriving Repr, DecidableEq

/-- Source: `PersistentStore::wildcard`, the sentinel access entry. -/
def PersistentStore.wildcard : String := "*"

/-- Source: `PersistentStore::wildcardName`. -/
def PersistentStore.wildcardName : String := "<all>"

/-- Modelled from the spec: cluster lookup by ID. -/
def PersistentStore.getCluster (s : PersistentStore) (cid : String) :
    Option Cluster :=
  s.clusters.find? (fun c => c.id = cid)

/-- Modelled from the spec: Group lookup by ID. -/
def PersistentStore.findGroupByID (s : PersistentStore) (gid : String) :
    Option Group :=
  s.groups.find? (fun g => g.id = gid)

/-- Modelled from the spec: Group lookup by name. -/
def PersistentStore.findGroupByName (s : PersistentStore) (name : String) :
    Option Group :=
  s.groups.find? (fun g => g.name = name)

/-- Modelled from the spec: `getGroup` accepts a Group name or ID. -/
def PersistentStore.getGroup (s : PersistentStore) (key : String) :
    Option Group :=
  match s.findGroupByID key with
  | some g => some g
  | none => s.findGroupByName key

/-- Modelled from the spec: membership predicate. -/
def PersistentStore.userInGroup (s : PersistentStore) (uid gid : String) :
    Bool :=
  s.memberships.contains (uid, gid)

/-- Modelled from the spec: IDs of groups granted access to a cluster. -/
def PersistentStore.listgroupsAllowedOnCluster (s : PersistentStore)
    (cid : String) : List String :=
  (s.clusterAccess.filter (fun p => p.2 = cid)).map (fun p => p.1)

/-- Modelled from the spec: add a Group↔Cluster access grant
(idempotent). -/
def PersistentStore.addGroupToCluster (s : PersistentStore)
    (gid cid : String) : PersistentStore × Bool :=
  if s.clusterAccess.contains (gid, cid) then (s, true)
  else ({ s with clusterAccess := s.clusterAccess ++ [(gid, cid)] }, true)

/-- Modelled from the spec: remove a Group↔Cluster access grant
(idempotent). -/
def PersistentStore.removeGroupFromCluster (s : PersistentStore)
    (gid cid : String) : PersistentStore × Bool :=
  ({ s with clusterAccess := s.clusterAccess.filter (fun p => p ≠ (gid, cid)) },
   true)

/-- Modelled from the spec: remove a cluster record by ID. -/
def PersistentStore.removeCluster (s : PersistentStore) (cid : String) :
    PersistentStore :=
  { s with clusters := s.clusters.filter (fun c => c.id ≠ cid) }

/-- Modelled from the spec: replace the record with the given ID. -/
def PersistentStore.updateClusterRec (s : PersistentStore) (c : Cluster) :
    PersistentStore :=
  { s with clusters := s.clusters.map (fun c0 => if c0.id = c.id then c else c0) }

/-- Modelled from the spec: all instances. -/
def PersistentStore.listApplicationInstances (s : PersistentStore) :
    List ApplicationInstance :=
  s.instances

/-- Modelled from the spec: instances filtered by cluster (the cluster
commands always pass the empty string, i.e. a wildcard, for the group). -/
def PersistentStore.listApplicationInstancesByClusterOrGroup
    (s : PersistentStore) (cid : String) : List ApplicationInstance :=
  s.instances.filter (fun i => i.cluster = cid)

/-- Modelled from the spec: secrets filtered by cluster (group wildcard). -/
def PersistentStore.listSecrets (s : PersistentStore) (cid : String) :
    List Secret :=
  s.secrets.filter (fun sec => sec.cluster = cid)

/-- Modelled from the spec: all groups. -/
def PersistentStore.listgroups (s : PersistentStore) : List Group :=
  s.groups

/-- Modelled from the spec: remove an instance record. -/
def PersistentStore.removeInstance (s : PersistentStore) (iid : String) :
    PersistentStore :=
  { s with instances := s.instances.filter (fun i => i.id ≠ iid) }

/-- Modelled from the spec: remove a secret record. -/
def PersistentStore.removeSecret (s : PersistentStore) (sid : String) :
    PersistentStore :=
  { s with secrets := s.secrets.filter (fun sec => sec.id ≠ sid) }

/-- Modelled from the spec: reachability cache read with TTL — the entry
is returned only while the current time is before its expiry. -/
def PersistentStore.getCachedClusterReachability (s : PersistentStore)
    (cid : String) (now : Nat) : Option Bool :=
  match s.reachability.find? (fun e => e.1 = cid) with
  | some e => if now < e.2.2 then some e.2.1 else none
  | none => none

/-- Modelled from the spec: reachability cache write; the entry expires
`ttl` after the current time. -/
def PersistentStore.cacheClusterReachability (s : PersistentStore)
    (cid : String) (v : Bool) (now ttl : Nat) : PersistentStore :=
  { s with reachability :=
      (cid, v, now + ttl) :: s.reachability.filter (fun e => e.1 ≠ cid) }

/-! ## ID generation (Entities.cpp, `IDGenerator::generateRawID`)

The C++ draws a uniformly random `uint64_t` and renders it with boost's
`base64_from_binary<transform_width<const unsigned char*,6,8>>` over the
value's 8 in-memory (little-endian) bytes, then maps `+`→`-` and `/`→`_`.
The embedding makes the random value an explicit argument. -/

/-- The bits of a byte, most significant first (as `transform_width`
consumes them). -/
def byteBitsMSB (b : Nat) : List Bool :=
  [b / 128 % 2 == 1, b / 64 % 2 == 1, b / 32 % 2 == 1, b / 16 % 2 == 1,
   b / 8 % 2 == 1, b / 4 % 2 == 1, b / 2 % 2 == 1, b % 2 == 1]

/-- The 8 bytes of a 64-bit value in memory order (little-endian). -/
def uint64LEBytes (v : Nat) : List Nat :=
  [v % 256, v / 2 ^ 8 % 256, v / 2 ^ 16 % 256, v / 2 ^ 24 % 256,
   v / 2 ^ 32 % 256, v / 2 ^ 40 % 256, v / 2 ^ 48 % 256, v / 2 ^ 56 % 256]

/-- Value of up to 6 bits read most-significant first, zero-padded at the
end to 6 bits (as `transform_width` pads the final group). -/
def sextetVal (bits : List Bool) : Nat :=
  ((bits ++ List.replicate 6 false).take 6).foldl
    (fun acc b => 2 * acc + (if b then 1 else 0)) 0

/-- Split a bit stream into 6-bit groups, zero-padding the last group. -/
def sextetsOf : List Bool → List Nat
  | [] => []
  | b1 :: b2 :: b3 :: b4 :: b5 :: b6 :: rest =>
    sextetVal [b1, b2, b3, b4, b5, b6] :: sextetsOf rest
  | bits => [sextetVal bits]

/-- The standard base64 alphabet (RFC 4648 table 1). -/
def base64Chars : List Char :=
  "ABCDEFGHIJKLMNOPQRSTUVWXYZabcdefghijklmnopqrstuvwxyz0123456789+/".toList

def base64Char (n : Nat) : Char :=
  match base64Chars.get? n with
  | some c => c
  | none => 'A'

/-- Source: the post-encoding character replacement `+`→`-`, `/`→`_`. -/
def urlSafeChar (c : Char) : Char :=
  if c = '+' then '-' else if c = '/' then '_' else c

/-- Source: `IDGenerator::generateRawID`, with the random 64-bit value as
an explicit argument. -/
def generateRawID (v : Nat) : String :=
  String.mk ((sextetsOf ((uint64LEBytes v).map byteBitsMSB).flatten).map
    (fun n => urlSafeChar (base64Char n)))

/-- Source: `IDGenerator::clusterIDPrefix` (= "cluster_"). -/
def clusterIDPfx : String := "cluster_"

/-- Source: `IDGenerator::groupIDPrefix` (= "group_"). -/
def groupIDPfx : String := "group_"

/-- Modelled from the spec: `generateClusterID` prefixes the raw ID with
the kind tag (the inline definition lives in Entities.h, which is not in
this snapshot; the spec: "prefixed with the kind tag"). -/
def generateClusterID (v : Nat) : String :=
  clusterIDPfx ++ generateRawID v

/-- Membership in the URL-safe base64 alphabet, i.e. the regex character
class `[A-Za-z0-9_-]` (by ASCII ranges). -/
def isURLSafeBase64Char (c : Char) : Bool :=
  ('A' ≤ c && c ≤ 'Z') || ('a' ≤ c && c ≤ 'z') || ('0' ≤ c && c ≤ '9')
    || c = '-' || c = '_'

/-! ## Access-policy handlers (ClusterCommands.cpp)

Each handler is embedded as a function of the store, the authenticated
user (authentication itself resolves the token to a `User`; an invalid
`User` models a failed lookup), and the request path parameters.  The
result is the final store paired with the HTTP status code. -/

/-- Source: `listClusterAllowedgroups`.  On success the result is the
list of `(id, name)` metadata pairs of the returned Group items, in
order. -/
def listClusterAllowedgroups (store : PersistentStore) (user : User)
    (clusterID : String) : Except Nat (List (String × String)) :=
  if ¬ user.valid then .error 403
  else match store.getCluster clusterID with
    | none => .error 404
    | some cluster =>
      let groupIDs := store.listgroupsAllowedOnCluster cluster.id
      -- if result is a wildcard skip the usual steps
      if groupIDs = [PersistentStore.wildcard] then
        .ok [(PersistentStore.wildcard, PersistentStore.wildcardName)]
      else
        -- include the owning Group, which implicitly always has access
        let groupIDs := groupIDs ++ [cluster.owningGroup]
        .ok (groupIDs.filterMap (fun gid =>
          match store.findGroupByID gid with
          | none => none -- apparently invalid Group ID: logged and skipped
          | some g => some (gid, g.name)))

/-- Source: `grantGroupClusterAccess`. -/
def grantGroupClusterAccess (store : PersistentStore) (user : User)
    (clusterID groupID : String) : PersistentStore × Nat :=
  if ¬ user.valid then (store, 403)
  else match store.getCluster clusterID with
    | none => (store, 404)
    | some cluster =>
      -- only admins and cluster owners can grant other groups access
      if ¬ user.admin ∧ ¬ store.userInGroup user.id cluster.owningGroup then
        (store, 403)
      else if groupID = PersistentStore.wildcard
              ∨ groupID = PersistentStore.wildcardName then
        let r := store.addGroupToCluster PersistentStore.wildcard cluster.id
        if r.2 then (r.1, 200) else (r.1, 500)
      else match store.getGroup groupID with
        | none => (store, 404)
        | some group =>
          if group.id = cluster.owningGroup then
            -- the owning group always implicitly has access,
            -- so return success without making a pointless record
            (store, 200)
          else
            let r := store.addGroupToCluster group.id cluster.id
            if r.2 then (r.1, 200) else (r.1, 500)

/-- Source: `revokeGroupClusterAccess`. -/
def revokeGroupClusterAccess (store : PersistentStore) (user : User)
    (clusterID groupID : String) : PersistentStore × Nat :=
  if ¬ user.valid then (store, 403)
  else match store.getCluster clusterID with
    | none => (store, 404)
    | some cluster =>
      -- only admins and cluster owners can change other groups' access
      if ¬ user.admin ∧ ¬ store.userInGroup user.id cluster.owningGroup then
        (store, 403)
      else if groupID = PersistentStore.wildcard
              ∨ groupID = PersistentStore.wildcardName then
        let r := store.removeGroupFromCluster PersistentStore.wildcard cluster.id
        if r.2 then (r.1, 200) else (r.1, 500)
      else match store.getGroup groupID with
        | none => (store, 404)
        | some group =>
          if group.id = cluster.owningGroup then
            (store, 400) -- Cannot deny cluster access to owning Group
          else
            let r := store.removeGroupFromCluster group.id cluster.id
            if r.2 then (r.1, 200) else (r.1, 500)

/-! ## Cluster update (ClusterCommands.cpp, `updateCluster`)

The request body's `metadata` object carries three optional fields; JSON
transport is external, so the body is embedded as the already-parsed
optional fields (a present field of the wrong JSON type is rejected
before any of the logic modelled here runs). -/

structure UpdateMetadata where
  kubeconfig : Option String
  owningOrganization : Option String
  location : Option (List GeoLocation)
deriving Repr, DecidableEq

/-- Source: `internal::pingCluster` — the default-namespace
ServiceAccount probe: reachable iff the kubectl call exited 0 and its
output mentions `default`. -/
def internalPingCluster (saProbe : CommandResult) : Bool :=
  saProbe.status == 0 && strContains saProbe.output "default"

/-- Source: `updateCluster`.  `saProbe` is the result of the
post-write contact probe (used only when the kubeconfig changed).
Locations live outside the modelled store; `setLocationsForCluster` is
modelled as always succeeding. -/
def updateCluster (store : PersistentStore) (user : User) (clusterID : String)
    (body : UpdateMetadata) (saProbe : CommandResult) : PersistentStore × Nat :=
  if !user.valid then (store, 403)
  else match store.getCluster clusterID with
    | none => (store, 404)
    | some cluster0 =>
      if !user.admin && !store.userInGroup user.id cluster0.owningGroup then
        (store, 403)
      else
        let cluster1 := match body.kubeconfig with
          | some cfg => { cluster0 with config := cfg }
          | none => cluster0
        let cluster2 := match body.owningOrganization with
          | some org => { cluster1 with owningOrganization := org }
          | none => cluster1
        let updateMainRecord := body.kubeconfig.isSome || body.owningOrganization.isSome
        let updateConfig := body.kubeconfig.isSome
        let updateLocation := body.location.isSome
        if !updateMainRecord && !updateLocation then
          (store, 200) -- requested update is trivial
        else
          let store1 := if updateMainRecord then store.updateClusterRec cluster2 else store
          if updateConfig then
            -- re-run the step-5 probe; a failure is reported but nothing
            -- is rolled back
            if !internalPingCluster saProbe then (store1, 400)
            else (store1, 200)
          else (store1, 200)

/-! ## Reachability ping (ClusterCommands.cpp, `pingCluster` handler) -/

structure PingOutcome where
  store : PersistentStore
  reachable : Bool
  /-- whether the handler contacted the cluster (performed the probe) -/
  probed : Bool
deriving Repr, DecidableEq

/-- Source: the `pingCluster` HTTP handler.  `useCache` is the presence
of the `cache` query parameter; `saProbe` is what the ServiceAccount
probe would return if performed; `now`/`ttl` parameterize the modelled
cache clock. -/
def pingClusterHandler (store : PersistentStore) (user : User)
    (clusterID : String) (useCache : Bool) (saProbe : CommandResult)
    (now ttl : Nat) : Except Nat PingOutcome :=
  if !user.valid then .error 403
  else match store.getCluster clusterID with
    | none => .error 404
    | some cluster =>
      let cacheResult := if useCache
        then store.getCachedClusterReachability cluster.id now
        else none
      match cacheResult with
      | some v => .ok ⟨store, v, false⟩
      | none =>
        let reachable := internalPingCluster saProbe
        .ok ⟨store.cacheClusterReachability cluster.id reachable now ttl,
             reachable, true⟩

/-! ## Consistency check (ClusterCommands.cpp, `ClusterConsistencyResult`) -/

inductive ClusterConsistencyState
  | Unreachable
  | HelmFailure
  | Inconsistent
  | Consistent
deriving Repr, DecidableEq

/-- The external observations the consistency check makes. -/
structure ConsistencyEnv where
  /-- the ServiceAccount probe made by `internal::pingCluster` -/
  saProbe : CommandResult
  /-- `helm list` in the system namespace -/
  helmList : CommandResult
  /-- `kubectl get clusternamespaces` (the code never checks its status) -/
  namespaceList : CommandResult
  /-- `kubectl get secrets -n <namespace>` per namespace -/
  secretsIn : String → CommandResult

structure ClusterConsistencyResult where
  status : ClusterConsistencyState
  missingInstances : Finset String
  unexpectedInstances : Finset String
  missingSecrets : Finset String
  unexpectedSecrets : Finset String
deriving DecidableEq

/-- Observed helm releases: skip the header line, split each line on
tabs, keep each line's first column. -/
def existingInstanceNamesOf (helmOutput : String) : Finset String :=
  (((string_split_lines helmOutput).drop 1).filterMap
    (fun line => (string_split_columns line '\t' false).head?)).toFinset

/-- Expected releases: names of the store's instances on this cluster. -/
def expectedInstanceNamesOf (store : PersistentStore) (cid : String) :
    Finset String :=
  ((store.listApplicationInstancesByClusterOrGroup cid).map
    (fun i => i.name)).toFinset

/-- Observed secrets: for each visible namespace bearing the Group
prefix, list secrets, skip `default-token-*`, key as
`<group-name>:<secret-name>`. -/
def existingSecretNamesOf (env : ConsistencyEnv) : Finset String :=
  ((((string_split_columns env.namespaceList.output ' ' false).filter
      (fun ns => strStarts ns namespacePfx)).map (fun ns =>
        let groupName := String.mk (ns.toList.drop namespacePfx.toList.length)
        ((string_split_columns (env.secretsIn ns).output ' ' false).filter
          (fun sn => !strStarts sn "default-token-")).map
          (fun sn => groupName ++ ":" ++ sn))).flatten).toFinset

/-- Expected secrets: the store's secrets on this cluster, keyed as
`<group-name>:<secret-name>` (an unresolvable owning Group yields an
empty group name, as `findGroupByID(...).name` does). -/
def expectedSecretNamesOf (store : PersistentStore) (cid : String) :
    Finset String :=
  ((store.listSecrets cid).map (fun sec =>
    (match store.findGroupByID sec.group with
     | some g => g.name
     | none => "") ++ ":" ++ sec.name)).toFinset

/-- Source: the `ClusterConsistencyResult` constructor. -/
def clusterConsistencyCheck (store : PersistentStore) (cluster : Cluster)
    (env : ConsistencyEnv) : ClusterConsistencyResult :=
  if !internalPingCluster env.saProbe then
    ⟨.Unreachable, ∅, ∅, ∅, ∅⟩
  else if env.helmList.status ≠ 0 then
    ⟨.HelmFailure, ∅, ∅, ∅, ∅⟩
  else
    let existingI := existingInstanceNamesOf env.helmList.output
    let expectedI := expectedInstanceNamesOf store cluster.id
    let missingI := expectedI \ existingI
    let unexpectedI := existingI \ expectedI
    -- status is set to Inconsistent as soon as either instance
    -- difference is nonempty ...
    let status1 : ClusterConsistencyState :=
      if missingI ≠ ∅ ∨ unexpectedI ≠ ∅ then .Inconsistent else .Consistent
    let existingS := existingSecretNamesOf env
    let expectedS := expectedSecretNamesOf store cluster.id
    let missingS := expectedS \ existingS
    let unexpectedS := existingS \ expectedS
    -- ... and again when either secret difference is nonempty
    let status2 : ClusterConsistencyState :=
      if missingS ≠ ∅ ∨ unexpectedS ≠ ∅ then .Inconsistent else status1
    ⟨status2, missingI, unexpectedI, missingS, unexpectedS⟩

/-! ## Cluster deletion cascade (ClusterCommands.cpp,
`internal::deleteCluster` and the `deleteCluster` handler)

The cascade's external effects are recorded as an ordered event trace.
Within the code, secret deletions and namespace deletions are each
dispatched as a batch of async tasks that is joined before the function
proceeds; the sequential embedding renders each batch as a contiguous
block of completion events, which preserves exactly the cross-stage
ordering the code guarantees. -/

inductive CascadeEvent
  | instanceDelete (id : String)
  | secretDelete (id : String)
  | namespaceDelete (nsName : String)
  | clusterRemove (id : String)
deriving Repr, DecidableEq

/-- Outcomes of the external helm/kubectl work the cascade triggers.
`nsDeleteOk` is recorded for completeness: the code only logs namespace
deletion failures, so no result below may depend on it. -/
structure CascadeEnv where
  instHelmOk : String → Bool
  secretKubeOk : String → Bool
  nsDeleteOk : String → Bool
  removeClusterOk : Bool

/-- Modelled from the spec: `internal::deleteApplicationInstance`
(ApplicationInstanceCommands.cpp is not in this snapshot).  Delete
mirrors install: helm delete, then store remove; `force` lets the store
remove succeed even when helm fails.  Returns the new store and the
error string (empty on success).  `instOk` is the helm outcome per
instance ID. -/
def deleteApplicationInstance (instOk : String → Bool)
    (store : PersistentStore) (inst : ApplicationInstance) (force : Bool) :
    PersistentStore × String :=
  if instOk inst.id then (store.removeInstance inst.id, "")
  else if force then (store.removeInstance inst.id, "helm delete failed")
  else (store, "helm delete failed")

/-- Modelled from the spec: `internal::deleteSecret` (SecretCommands.cpp
is not in this snapshot).  Delete removes from Kubernetes first, then
from the store; with `force` the store removal proceeds regardless of
the Kubernetes outcome.  `secretOk` is the kubectl outcome per secret
ID. -/
def deleteSecret (secretOk : String → Bool) (store : PersistentStore)
    (sec : Secret) (force : Bool) : PersistentStore × String :=
  if secretOk sec.id then (store.removeSecret sec.id, "")
  else if force then (store.removeSecret sec.id, "kubectl delete failed")
  else (store, "kubectl delete failed")

/-- Stage 1 of the cascade: serial deletion of the instances on the
cluster (the surrounding loop iterates over all instances, filtering by
cluster).  Without `force` the first failure aborts with the cascade's
error string. -/
def instanceStage (instOk : String → Bool) (force : Bool) (cid : String) :
    List ApplicationInstance → PersistentStore →
    PersistentStore × Option String × List CascadeEvent
  | [], store => (store, none, [])
  | inst :: rest, store =>
    if inst.cluster = cid then
      let r := deleteApplicationInstance instOk store inst force
      if !force && r.2 ≠ "" then
        (r.1,
         some ("Failed to delete cluster due to failure deleting instance: "
               ++ r.2),
         [.instanceDelete inst.id])
      else
        let r2 := instanceStage instOk force cid rest r.1
        (r2.1, r2.2.1, .instanceDelete inst.id :: r2.2.2)
    else
      instanceStage instOk force cid rest store

/-- Stage 2 of the cascade: every secret deletion is dispatched (always
with inner `force = true`), and every task runs to completion; the
result strings are collected in dispatch order. -/
def secretStage (secretOk : String → Bool) :
    List Secret → PersistentStore →
    PersistentStore × List String × List CascadeEvent
  | [], store => (store, [], [])
  | sec :: rest, store =>
    let r := deleteSecret secretOk store sec true
    let r2 := secretStage secretOk rest r.1
    (r2.1, r.2 :: r2.2.1, .secretDelete sec.id :: r2.2.2)

/-- Stage 3 of the cascade: namespace deletion is dispatched for every
Group; failures are logged and never alter control flow or the store. -/
def namespaceStage (groups : List Group) : List CascadeEvent :=
  groups.map (fun g => .namespaceDelete g.namespaceName)

/-- Source: `internal::deleteCluster`.  Returns the final store, the
error string (empty on success) and the ordered event trace. -/
def internalDeleteCluster (env : CascadeEnv) (store : PersistentStore)
    (cluster : Cluster) (force : Bool) :
    PersistentStore × String × List CascadeEvent :=
  let s1 := instanceStage env.instHelmOk force cluster.id
              store.listApplicationInstances store
  match s1.2.1 with
  | some err => (s1.1, err, s1.2.2)
  | none =>
    let s2 := secretStage env.secretKubeOk (s1.1.listSecrets cluster.id) s1.1
    let trace1 := s1.2.2 ++ s2.2.2
    -- ensure secret deletions are complete before deleting namespaces;
    -- without force the first failure aborts
    match (if force then none else (s2.2.1.filter (· ≠ "")).head?) with
    | some err =>
      (s2.1, "Failed to delete cluster due to failure deleting secret: " ++ err,
       trace1)
    | none =>
      let nsEvents := namespaceStage s2.1.listgroups
      let trace2 := trace1 ++ nsEvents
      if env.removeClusterOk then
        (s2.1.removeCluster cluster.id, "", trace2 ++ [.clusterRemove cluster.id])
      else
        (s2.1, "Cluster deletion failed", trace2)

/-- Source: the `deleteCluster` HTTP handler.  `force` is the presence
of the `force` query parameter. -/
def deleteClusterHandler (env : CascadeEnv) (store : PersistentStore)
    (user : User) (clusterID : String) (force : Bool) :
    PersistentStore × Nat × List CascadeEvent :=
  if !user.valid then (store, 403, [])
  else match store.getCluster clusterID with
    | none => (store, 404, [])
    | some cluster =>
      if !store.userInGroup user.id cluster.owningGroup then (store, 403, [])
      else
        let r := internalDeleteCluster env store cluster force
        if r.2.1 ≠ "" then (r.1, 500, r.2.2) else (r.1, 200, r.2.2)

/-! ## Cluster registration bootstrap (ClusterCommands.cpp,
`createCluster`, from the point where the tentative record has been
persisted: source lines 175-333) -/

/-- The external command results the bootstrap consumes. -/
structure BootstrapEnv where
  /-- `kubectl get serviceaccounts` in the default namespace -/
  saList : CommandResult
  /-- `kubectl describe serviceaccount <systemNamespace>` -/
  saDescribe : CommandResult
  /-- `helm init --service-account ... --tiller-namespace ...` -/
  helmInit : CommandResult
  /-- `kubectl get deployments --namespace <systemNamespace>` -/
  deployList : CommandResult
  /-- `kubectl get pods --namespace <systemNamespace>`, per poll
  iteration -/
  pods : Nat → CommandResult

/-- C++ `std::stoul`: parse a leading run of decimal digits; throws
(here: `none`) when there is none or the value overflows
`unsigned long`. -/
def stoulPre (s : String) : Option Nat :=
  let ds := s.toList.takeWhile Char.isDigit
  if ds = [] then none
  else
    let v := ds.foldl (fun acc c => 10 * acc + (c.toNat - 48)) 0
    if v < 2 ^ 64 then some v else none

/-- Parse a pod readiness column `N/M`.  `none` models every case in
which the source `break`s out of the line loop: no slash, slash at
either end, or an unparsable side. -/
def readyFraction (tok : String) : Option (Nat × Nat) :=
  match tok.toList.findIdx? (· = '/') with
  | none => none
  | some slashPos =>
    if slashPos = 0 ∨ slashPos + 1 = tok.toList.length then none
    else match stoulPre (String.mk (tok.toList.take slashPos)),
               stoulPre (String.mk (tok.toList.drop (slashPos + 1))) with
      | some n, some d => some (n, d)
      | _, _ => none

/-- One poll iteration's scan of the `get pods` output lines: true iff a
`tiller-deploy` pod reports `N/N` ready with `N > 0`; a malformed ready
column on a `tiller-deploy` line stops the scan. -/
def scanPodLines : List String → Bool
  | [] => false
  | line :: rest =>
    let tokens := string_split_columns line ' ' false
    if tokens.length < 3 then scanPodLines rest
    else if !strContains (tokens.headD "") "tiller-deploy" then
      scanPodLines rest
    else match readyFraction (tokens.getD 1 "") with
      | none => false
      | some nd => if nd.1 > 0 && nd.1 == nd.2 then true else scanPodLines rest

/-- The tiller-readiness poll: iteration `i` runs with `delaySoFar =
500 * i`; after a failed check the loop sleeps 500 ms while `delaySoFar <
120000`, otherwise it times out.  A kubectl failure also ends the loop
unsuccessfully.  `fuel` bounds the recursion; 241 iterations cover the
whole 120 s deadline. -/
def tillerPoll (pods : Nat → CommandResult) : Nat → Nat → Bool
  | 0, _ => false
  | fuel + 1, i =>
    let r := pods i
    if r.status ≠ 0 then false
    else if scanPodLines (string_split_lines r.output) then true
    else if 500 * i < 120000 then tillerPoll pods fuel (i + 1)
    else false

def tillerPollRun (pods : Nat → CommandResult) : Bool :=
  tillerPoll pods 241 0

structure BootstrapOutcome where
  store : PersistentStore
  status : Nat
deriving Repr, DecidableEq

/-- Source: `createCluster`, bootstrap phase (steps 5-8 of the spec's
registration procedure), entered with the tentative cluster record
already persisted in `store`. -/
def createClusterBootstrap (env : BootstrapEnv) (store : PersistentStore)
    (cluster : Cluster) : BootstrapOutcome :=
  -- step 5: list ServiceAccounts in the default namespace
  let clusterInfo := env.saList
  if clusterInfo.status ≠ 0 || !strContains clusterInfo.output "default" then
    ⟨store.removeCluster cluster.id, 500⟩
  else
    let serviceAccounts := string_split_columns clusterInfo.output ' ' false
    if serviceAccounts = [] then
      ⟨store.removeCluster cluster.id, 500⟩
    else if !serviceAccounts.contains cluster.systemNamespace then
      -- the tentative record is NOT removed on this path
      -- (source lines 199-201)
      ⟨store, 500⟩
    else
      -- step 6: describe the ServiceAccount and check its `Namespace:`
      -- line
      let namespaceCheck := env.saDescribe
      if namespaceCheck.status ≠ 0 then
        ⟨store.removeCluster cluster.id, 500⟩
      else
        let okay := (string_split_lines namespaceCheck.output).any
          (fun line =>
            let items := string_split_columns line ' ' false
            items.length == 2 && items.headD "" == "Namespace:"
              && items.getD 1 "" == cluster.systemNamespace)
        if !okay then
          ⟨store.removeCluster cluster.id, 500⟩
        else
          -- the namespace and ServiceAccount check out; update the record
          let store1 := store.updateClusterRec cluster
          -- step 7: helm init
          let cr := env.helmInit
          if cr.status ≠ 0
             || (!strContains cr.output
                   "Tiller (the Helm server-side component) has been installed"
                 && !strContains cr.output "Tiller is already installed") then
            ⟨store1.removeCluster cluster.id, 500⟩
          else
            let warned := strContains cr.output
              "Warning: Tiller is already installed in the cluster"
            let deployOk := env.deployList.status == 0
              && (string_split_columns env.deployList.output ' ' false).contains
                   "tiller-deploy"
            if warned && !deployOk then
              ⟨store1.removeCluster cluster.id, 500⟩
            else
              -- step 8: poll for tiller readiness.  The poll's outcome is
              -- never consulted afterwards: the source falls through to
              -- the success response whether or not tiller became ready.
              let _tillerRunning := tillerPollRun env.pods
              ⟨store1, 200⟩

/-! ## Concrete example data (used by witnesses and counterexamples) -/

def exOwnerGroup : Group := ⟨"group_own", "owners"⟩

def exGuestGroup : Group := ⟨"group_guest", "guests"⟩

def exCluster : Cluster :=
  ⟨"cluster_c1", "testcluster", "group_own", "Test Org", "cfg", "kube-system"⟩

def exAdmin : User := ⟨"user_admin", true, true⟩

/-- A store holding the example cluster whose access set is exactly the
wildcard entry. -/
def exStoreWildcardOnly : PersistentStore :=
  ⟨[exOwnerGroup, exGuestGroup], [exCluster], [], [],
   [("user_admin", "group_own")], [(PersistentStore.wildcard, "cluster_c1")], []⟩

/-- A store holding the example cluster with one explicit (guest) access
grant. -/
def exStoreGuestAccess : PersistentStore :=
  ⟨[exOwnerGroup, exGuestGroup], [exCluster], [], [],
   [("user_admin", "group_own")], [("group_guest", "cluster_c1")], []⟩

/-- A store with one instance and one secret on the example cluster. -/
def exStorePopulated : PersistentStore :=
  ⟨[exOwnerGroup, exGuestGroup], [exCluster],
   [⟨"instance_i1", "owners-app1", "group_own", "cluster_c1"⟩],
   [⟨"secret_s1", "s1", "group_own", "cluster_c1"⟩],
   [("user_admin", "group_own")], [("group_guest", "cluster_c1")], []⟩

/-- Observations under which `exStorePopulated` is consistent: helm
lists exactly the expected release and the tenant namespace holds
exactly the expected secret (plus an ignored `default-token-`). -/
def exEnvConsistent : ConsistencyEnv :=
  ⟨⟨0, "default kube-system", ""⟩,
   ⟨0, "NAME\tREVISION\nowners-app1\t1", ""⟩,
   ⟨0, "slate-group-owners", ""⟩,
   fun _ => ⟨0, "default-token-xyz s1", ""⟩⟩

/-- A cascade environment in which every helm instance deletion fails,
secret deletions succeed, namespace deletions fail, and the store's
cluster removal succeeds. -/
def exEnvCascade : CascadeEnv :=
  ⟨fun _ => false, fun _ => true, fun _ => false, true⟩

/-- A `kubectl get pods` result in which the tiller pod is permanently
not ready (`0/1`). -/
def exPodsStuck : CommandResult :=
  ⟨0, "NAME READY STATUS\ntiller-deploy-abc 0/1 Running", ""⟩

/-- Bootstrap observations whose ServiceAccount and helm-init checks all
pass but whose tiller pod never becomes ready: the readiness poll runs
into its 120 s deadline. -/
def exEnvBootStuck : BootstrapEnv :=
  ⟨⟨0, "default kube-system", ""⟩,
   ⟨0, "Name: kube-system\nNamespace: kube-system", ""⟩,
   ⟨0, "Tiller (the Helm server-side component) has been installed", ""⟩,
   ⟨0, "", ""⟩,
   fun _ => exPodsStuck⟩

end Slate

namespace Slate

/-! # Theorems -/

section IDGeneration

/-- Every element the base64 lookup can produce lies in the base64
alphabet (the lookup's out-of-range default is `'A'`, itself in the
alphabet). -/
theorem base64Char_mem_base64Chars (n : Nat) : base64Char n ∈ base64Chars := by
  unfold base64Char
  cases h : base64Chars.get? n with
  | none => simp [base64Chars]
  | some c =>
    have := List.get?_mem h
    simpa using this

theorem urlSafe_of_mem_base64Chars (c : Char) (h : c ∈ base64Chars) :
    isURLSafeBase64Char (urlSafeChar c) = true := by
  have hall : base64Chars.all (fun c => isURLSafeBase64Char (urlSafeChar c)) = true := by
    decide
  exact List.all_eq_true.mp hall c h

/-- C9: every generated ID is the kind tag followed by the URL-safe
base64 rendering of the 64-bit random value: it matches
`^cluster_[A-Za-z0-9_-]{11}$`, i.e. the raw part is exactly 11 URL-safe
base64 characters. -/
theorem generateID_matches_urlsafe_regex (v : Nat) (_hv : v < 2 ^ 64) :
    generateClusterID v = clusterIDPfx ++ generateRawID v ∧
    (generateRawID v).length = 11 ∧
    ∀ c ∈ (generateRawID v).toList, isURLSafeBase64Char c = true := by
  refine ⟨rfl, rfl, ?_⟩
  intro c hc
  have hc' : c ∈ (sextetsOf ((uint64LEBytes v).map byteBitsMSB).flatten).map
      (fun n => urlSafeChar (base64Char n)) := hc
  obtain ⟨n, -, rfl⟩ := List.mem_map.mp hc'
  exact urlSafe_of_mem_base64Chars _ (base64Char_mem_base64Chars n)

/-- C9 witness: the theorem applied at the concrete value 81985529216486895. -/
theorem generateID_matches_urlsafe_regex_witness :
    generateClusterID 81985529216486895 =
        clusterIDPfx ++ generateRawID 81985529216486895 ∧
    (generateRawID 81985529216486895).length = 11 ∧
    ∀ c ∈ (generateRawID 81985529216486895).toList,
      isURLSafeBase64Char c = true :=
  generateID_matches_urlsafe_regex 81985529216486895 (by decide)

end IDGeneration

section AccessPolicy

/-- C10: granting cluster access to the cluster's own owning Group
returns 200 without writing any access record: the store is returned
unchanged. -/
theorem grant_owning_group_is_noop_success
    (store : PersistentStore) (user : User) (clusterID groupID : String)
    (cluster : Cluster) (g : Group)
    (hval : user.valid = true)
    (hperm : user.admin = true ∨
             store.userInGroup user.id cluster.owningGroup = true)
    (hc : store.getCluster clusterID = some cluster)
    (hw1 : groupID ≠ PersistentStore.wildcard)
    (hw2 : groupID ≠ PersistentStore.wildcardName)
    (hg : store.getGroup groupID = some g)
    (hown : g.id = cluster.owningGroup) :
    grantGroupClusterAccess store user clusterID groupID = (store, 200) := by
  unfold grantGroupClusterAccess
  rw [hc]
  rcases hperm with hp | hp <;>
    simp [hval, hp, hw1, hw2, hg, hown]

/-- C10 witness: an admin grants the owning Group's access on the
example store. -/
theorem grant_owning_group_is_noop_success_witness :
    grantGroupClusterAccess exStoreGuestAccess exAdmin "cluster_c1" "group_own"
      = (exStoreGuestAccess, 200) :=
  grant_owning_group_is_noop_success exStoreGuestAccess exAdmin "cluster_c1"
    "group_own" exCluster exOwnerGroup rfl (Or.inl rfl) (by decide)
    (by decide) (by decide) (by decide) rfl

/-- C5: revoking the owning Group's access is rejected with 400 and the
store (in particular the access relation) is unchanged; revoking any
other existing, non-wildcard Group's access succeeds with 200, removing
exactly that grant. -/
theorem revoke_owning_rejected_other_succeeds
    (store : PersistentStore) (user : User) (clusterID groupID : String)
    (cluster : Cluster) (g : Group)
    (hval : user.valid = true)
    (hperm : user.admin = true ∨
             store.userInGroup user.id cluster.owningGroup = true)
    (hc : store.getCluster clusterID = some cluster)
    (hw1 : groupID ≠ PersistentStore.wildcard)
    (hw2 : groupID ≠ PersistentStore.wildcardName)
    (hg : store.getGroup groupID = some g) :
    (g.id = cluster.owningGroup →
      revokeGroupClusterAccess store user clusterID groupID = (store, 400)) ∧
    (g.id ≠ cluster.owningGroup →
      revokeGroupClusterAccess store user clusterID groupID =
        ({ store with clusterAccess :=
             store.clusterAccess.filter (fun p => p ≠ (g.id, cluster.id)) },
         200)) := by
  constructor <;> intro hown <;>
    · unfold revokeGroupClusterAccess
      rw [hc]
      rcases hperm with hp | hp <;>
        simp [hval, hp, hw1, hw2, hg, hown, PersistentStore.removeGroupFromCluster]

/-- C5 witness: on the example store, revoking the owning Group yields
400 with no change, and revoking the guest Group removes its grant. -/
theorem revoke_owning_rejected_other_succeeds_witness :
    (revokeGroupClusterAccess exStoreGuestAccess exAdmin "cluster_c1" "group_own"
       = (exStoreGuestAccess, 400)) ∧
    (revokeGroupClusterAccess exStoreGuestAccess exAdmin "cluster_c1" "group_guest"
       = ({ exStoreGuestAccess with clusterAccess := [] }, 200)) := by
  constructor
  · exact
      (revoke_owning_rejected_other_succeeds exStoreGuestAccess exAdmin
        "cluster_c1" "group_own" exCluster exOwnerGroup rfl (Or.inl rfl)
        (by decide) (by decide) (by decide) (by decide)).1 rfl
  · have h :=
      (revoke_owning_rejected_other_succeeds exStoreGuestAccess exAdmin
        "cluster_c1" "group_guest" exCluster exGuestGroup rfl (Or.inl rfl)
        (by decide) (by decide) (by decide) (by decide)).2 (by decide)
    rw [h]
    decide

/-- The ids of the items produced by the allowed-groups listing are the
input ids that resolve to a Group record, in order. -/
theorem allowedItems_ids (store : PersistentStore) (l : List String) :
    ((l.filterMap (fun gid =>
        match store.findGroupByID gid with
        | none => none
        | some g => some (gid, g.name))).map Prod.fst)
      = l.filter (fun gid => (store.findGroupByID gid).isSome) := by
  induction l with
  | nil => rfl
  | cons x xs ih =>
    cases h : store.findGroupByID x <;>
      simp [List.filterMap_cons, List.filter_cons, h, ih]

/-- C3 counterexample: on a store whose access set for the cluster is
exactly the wildcard entry, `listAllowed` returns only the wildcard
pseudo-group; the owning Group (`group_own`) does not appear, refuting
"the owning Group of C always appears in listAllowed(C)". -/
theorem listAllowed_wildcard_only_omits_owner :
    listClusterAllowedgroups exStoreWildcardOnly exAdmin "cluster_c1"
      = .ok [(PersistentStore.wildcard, PersistentStore.wildcardName)] ∧
    exCluster.owningGroup
      ∉ [(PersistentStore.wildcard, PersistentStore.wildcardName)].map Prod.fst := by
  constructor
  · rfl
  · decide

/-- C3 amended: provided the store's access set does not explicitly
record the owning Group (the grant handler never writes such a record)
and no Group record carries the wildcard ID, then: when the access set
is exactly the wildcard, the listing is exactly the wildcard
pseudo-group (the owning Group does not appear); otherwise the owning
Group appears exactly once and the wildcard does not appear. -/
theorem listAllowed_amended
    (store : PersistentStore) (user : User) (clusterID : String)
    (cluster : Cluster) (og : Group)
    (hval : user.valid = true)
    (hc : store.getCluster clusterID = some cluster)
    (hog : store.findGroupByID cluster.owningGroup = some og)
    (hnotin : cluster.owningGroup ∉ store.listgroupsAllowedOnCluster cluster.id)
    (hnowild : store.findGroupByID PersistentStore.wildcard = none) :
    (store.listgroupsAllowedOnCluster cluster.id = [PersistentStore.wildcard] →
      listClusterAllowedgroups store user clusterID
        = .ok [(PersistentStore.wildcard, PersistentStore.wildcardName)]) ∧
    (store.listgroupsAllowedOnCluster cluster.id ≠ [PersistentStore.wildcard] →
      ∃ items, listClusterAllowedgroups store user clusterID = .ok items ∧
        (items.map Prod.fst).count cluster.owningGroup = 1 ∧
        PersistentStore.wildcard ∉ items.map Prod.fst) := by
  constructor
  · intro hacc
    unfold listClusterAllowedgroups
    rw [hc]
    simp [hval, hacc]
  · intro hacc
    have hres : listClusterAllowedgroups store user clusterID
        = .ok ((store.listgroupsAllowedOnCluster cluster.id
                  ++ [cluster.owningGroup]).filterMap
            (fun gid => match store.findGroupByID gid with
              | none => none
              | some g => some (gid, g.name))) := by
      unfold listClusterAllowedgroups
      rw [hc]
      simp [hval, hacc]
    refine ⟨_, hres, ?_, ?_⟩
    · rw [allowedItems_ids]
      rw [List.filter_append, List.count_append]
      have h0 : (List.count cluster.owningGroup
          ((store.listgroupsAllowedOnCluster cluster.id).filter
            (fun gid => (store.findGroupByID gid).isSome))) = 0 := by
        rw [List.count_eq_zero]
        intro hmem
        exact hnotin (List.mem_of_mem_filter hmem)
      rw [h0]
      simp [hog]
    · rw [allowedItems_ids]
      intro hmem
      have := List.of_mem_filter hmem
      rw [hnowild] at this
      simp at this

/-- C3 amended witness: on the example store with one explicit guest
grant, the owning Group appears exactly once and the wildcard does not
appear. -/
theorem listAllowed_amended_witness :
    ∃ items,
      listClusterAllowedgroups exStoreGuestAccess exAdmin "cluster_c1"
        = .ok items ∧
      (items.map Prod.fst).count exCluster.owningGroup = 1 ∧
      PersistentStore.wildcard ∉ items.map Prod.fst :=
  (listAllowed_amended exStoreGuestAccess exAdmin "cluster_c1" exCluster
      exOwnerGroup rfl (by decide) (by decide) (by decide) (by decide)).2
    (by decide)

end AccessPolicy

section ClusterUpdate

/-- Replacing a cluster record makes the by-ID lookup yield the
replacement (the replacement carries the same ID). -/
theorem find_after_update (l : List Cluster) (cid : String) (c c' : Cluster)
    (h : l.find? (fun x => x.id = cid) = some c) (hid : c'.id = c.id) :
    (l.map (fun c0 => if c0.id = c'.id then c' else c0)).find?
      (fun x => x.id = cid) = some c' := by
  induction l with
  | nil => simp at h
  | cons x xs ih =>
    rcases List.find?_cons_eq_some.mp h with ⟨hx, hxc⟩ | ⟨hx, hrest⟩
    · subst hxc
      have hxid : x.id = cid := by simpa using hx
      have : x.id = c'.id := by rw [hxid, hid, hxid]
      simp only [List.map_cons, this, if_pos rfl]
      have : c'.id = cid := by rw [hid, hxid]
      simp [List.find?_cons, this]
    · have hxid : ¬ x.id = cid := by simpa using hx
      have hxne : ¬ x.id = c'.id := by
        intro hcontra
        have hcid : c.id = cid := by
          have := List.find?_some h
          simpa using this
        exact hxid (by rw [hcontra, hid, hcid])
      simp only [List.map_cons, if_neg hxne]
      rw [List.find?_cons_of_neg _ (by simpa using hxid)]
      exact ih hrest

/-- C7: (a) when the request changes the kubeconfig and the post-write
probe fails, the response is 400 and the persisted record still holds
the new kubeconfig — the write happens first and is not rolled back;
(b) a request whose body carries none of the optional fields returns 200
and leaves the store untouched. -/
theorem updateCluster_write_before_probe_no_rollback
    (store : PersistentStore) (user : User) (clusterID : String)
    (cluster : Cluster) (cfg : String) (saProbe : CommandResult)
    (hval : user.valid = true)
    (hperm : user.admin = true ∨
             store.userInGroup user.id cluster.owningGroup = true)
    (hc : store.getCluster clusterID = some cluster) :
    (internalPingCluster saProbe = false →
      updateCluster store user clusterID ⟨some cfg, none, none⟩ saProbe
        = (store.updateClusterRec { cluster with config := cfg }, 400) ∧
      (updateCluster store user clusterID ⟨some cfg, none, none⟩ saProbe).1.getCluster
          clusterID = some { cluster with config := cfg }) ∧
    (updateCluster store user clusterID ⟨none, none, none⟩ saProbe
      = (store, 200)) := by
  constructor
  · intro hprobe
    have heq : updateCluster store user clusterID ⟨some cfg, none, none⟩ saProbe
        = (store.updateClusterRec { cluster with config := cfg }, 400) := by
      unfold updateCluster
      rw [hc]
      rcases hperm with hp | hp <;>
        simp [hval, hp, hprobe]
    refine ⟨heq, ?_⟩
    rw [heq]
    exact find_after_update store.clusters clusterID cluster
      { cluster with config := cfg } hc rfl
  · unfold updateCluster
    rw [hc]
    rcases hperm with hp | hp <;>
      simp [hval, hp]

/-- C7 witness: on the example store, a kubeconfig update whose probe
fails yields 400 with the new kubeconfig persisted, and an empty update
is a no-op 200. -/
theorem updateCluster_write_before_probe_no_rollback_witness :
    (updateCluster exStoreGuestAccess exAdmin "cluster_c1"
        ⟨some "newcfg", none, none⟩ ⟨1, "", "connection refused"⟩
      = (exStoreGuestAccess.updateClusterRec { exCluster with config := "newcfg" },
         400) ∧
     (updateCluster exStoreGuestAccess exAdmin "cluster_c1"
        ⟨some "newcfg", none, none⟩ ⟨1, "", "connection refused"⟩).1.getCluster
        "cluster_c1" = some { exCluster with config := "newcfg" }) ∧
    (updateCluster exStoreGuestAccess exAdmin "cluster_c1"
        ⟨none, none, none⟩ ⟨1, "", "connection refused"⟩
      = (exStoreGuestAccess, 200)) :=
  updateCluster_write_before_probe_no_rollback exStoreGuestAccess exAdmin
    "cluster_c1" exCluster "newcfg" ⟨1, "", "connection refused"⟩ rfl
    (Or.inl rfl) (by decide)
    |>.imp (fun h => h (by decide)) id

end ClusterUpdate

section Reachability

/-- C8: (a) a ping with `useCache = false` performs the probe and
refreshes the cache; (b) a subsequent ping with `useCache = true` within
the TTL returns the same reachability value without contacting the
cluster and leaves the store as it was; (c) a ping with `useCache =
true` whose cache entry is absent or expired falls back to a fresh probe
and caches its result. -/
theorem pingCluster_cache_coherence
    (store : PersistentStore) (user : User) (clusterID : String)
    (cluster : Cluster) (saProbe1 saProbe2 : CommandResult)
    (now t2 ttl : Nat)
    (hval : user.valid = true)
    (hc : store.getCluster clusterID = some cluster)
    (httl : t2 < now + ttl) :
    (pingClusterHandler store user clusterID false saProbe1 now ttl
      = .ok ⟨store.cacheClusterReachability cluster.id
               (internalPingCluster saProbe1) now ttl,
             internalPingCluster saProbe1, true⟩) ∧
    (pingClusterHandler
        (store.cacheClusterReachability cluster.id
          (internalPingCluster saProbe1) now ttl)
        user clusterID true saProbe2 t2 ttl
      = .ok ⟨store.cacheClusterReachability cluster.id
               (internalPingCluster saProbe1) now ttl,
             internalPingCluster saProbe1, false⟩) ∧
    (store.getCachedClusterReachability cluster.id t2 = none →
      pingClusterHandler store user clusterID true saProbe2 t2 ttl
        = .ok ⟨store.cacheClusterReachability cluster.id
                 (internalPingCluster saProbe2) t2 ttl,
               internalPingCluster saProbe2, true⟩) := by
  have hcid : cluster.id = clusterID := by
    have := List.find?_some hc
    simpa using this
  refine ⟨?_, ?_, ?_⟩
  · unfold pingClusterHandler
    rw [hc]
    simp [hval]
  · have hc2 : (store.cacheClusterReachability cluster.id
        (internalPingCluster saProbe1) now ttl).getCluster clusterID
        = some cluster := by
      unfold PersistentStore.cacheClusterReachability PersistentStore.getCluster
      simpa [PersistentStore.getCluster] using hc
    unfold pingClusterHandler
    rw [hc2]
    have hcache : (store.cacheClusterReachability cluster.id
        (internalPingCluster saProbe1) now ttl).getCachedClusterReachability
          cluster.id t2 = some (internalPingCluster saProbe1) := by
      unfold PersistentStore.cacheClusterReachability
        PersistentStore.getCachedClusterReachability
      simp [httl]
    simp [hval, hcache]
  · intro hmiss
    unfold pingClusterHandler
    rw [hc]
    simp [hval, hmiss]

/-- C8 witness: on the example store (empty cache), a fresh ping probes
and caches, a cached ping within the TTL reuses the value without
probing, and a cache-miss ping probes. -/
theorem pingCluster_cache_coherence_witness :
    (pingClusterHandler exStoreGuestAccess exAdmin "cluster_c1" false
        ⟨0, "default kube-system", ""⟩ 100 60
      = .ok ⟨exStoreGuestAccess.cacheClusterReachability exCluster.id
               (internalPingCluster ⟨0, "default kube-system", ""⟩) 100 60,
             internalPingCluster ⟨0, "default kube-system", ""⟩, true⟩) ∧
    (pingClusterHandler
        (exStoreGuestAccess.cacheClusterReachability exCluster.id
          (internalPingCluster ⟨0, "default kube-system", ""⟩) 100 60)
        exAdmin "cluster_c1" true ⟨1, "", ""⟩ 130 60
      = .ok ⟨exStoreGuestAccess.cacheClusterReachability exCluster.id
               (internalPingCluster ⟨0, "default kube-system", ""⟩) 100 60,
             internalPingCluster ⟨0, "default kube-system", ""⟩, false⟩) ∧
    (exStoreGuestAccess.getCachedClusterReachability exCluster.id 130 = none →
      pingClusterHandler exStoreGuestAccess exAdmin "cluster_c1" true
          ⟨1, "", ""⟩ 130 60
        = .ok ⟨exStoreGuestAccess.cacheClusterReachability exCluster.id
                 (internalPingCluster ⟨1, "", ""⟩) 130 60,
               internalPingCluster ⟨1, "", ""⟩, true⟩) :=
  pingCluster_cache_coherence exStoreGuestAccess exAdmin "cluster_c1"
    exCluster ⟨0, "default kube-system", ""⟩ ⟨1, "", ""⟩ 100 130 60 rfl
    (by decide) (by decide)

end Reachability

section Consistency

/-- Reduction of the consistency check when the ping succeeds and helm
listing succeeds: the status is the nested Inconsistent/Consistent
decision over the four difference sets, which fill the result fields. -/
theorem clusterConsistencyCheck_eq
    (store : PersistentStore) (cluster : Cluster) (env : ConsistencyEnv)
    (hping : internalPingCluster env.saProbe = true)
    (hhelm : env.helmList.status = 0) :
    clusterConsistencyCheck store cluster env =
      ⟨(if expectedSecretNamesOf store cluster.id \ existingSecretNamesOf env ≠ ∅
          ∨ existingSecretNamesOf env \ expectedSecretNamesOf store cluster.id ≠ ∅
        then .Inconsistent
        else if expectedInstanceNamesOf store cluster.id
                  \ existingInstanceNamesOf env.helmList.output ≠ ∅
                ∨ existingInstanceNamesOf env.helmList.output
                  \ expectedInstanceNamesOf store cluster.id ≠ ∅
        then .Inconsistent
        else .Consistent),
       expectedInstanceNamesOf store cluster.id
         \ existingInstanceNamesOf env.helmList.output,
       existingInstanceNamesOf env.helmList.output
         \ expectedInstanceNamesOf store cluster.id,
       expectedSecretNamesOf store cluster.id \ existingSecretNamesOf env,
       existingSecretNamesOf env \ expectedSecretNamesOf store cluster.id⟩ := by
  unfold clusterConsistencyCheck
  simp [hping, hhelm]

/-- C6: the consistency result is Unreachable when the ping probe fails;
otherwise HelmFailure when listing helm releases fails; otherwise the
instance and secret difference sets are exactly `expected \ observed`
and `observed \ expected`, and the status is Consistent iff every
difference set is empty, Inconsistent otherwise. -/
theorem clusterConsistency_status_correct
    (store : PersistentStore) (cluster : Cluster) (env : ConsistencyEnv) :
    (internalPingCluster env.saProbe = false →
      (clusterConsistencyCheck store cluster env).status = .Unreachable) ∧
    (internalPingCluster env.saProbe = true → env.helmList.status ≠ 0 →
      (clusterConsistencyCheck store cluster env).status = .HelmFailure) ∧
    (internalPingCluster env.saProbe = true → env.helmList.status = 0 →
      (clusterConsistencyCheck store cluster env).missingInstances
          = expectedInstanceNamesOf store cluster.id
              \ existingInstanceNamesOf env.helmList.output ∧
      (clusterConsistencyCheck store cluster env).unexpectedInstances
          = existingInstanceNamesOf env.helmList.output
              \ expectedInstanceNamesOf store cluster.id ∧
      (clusterConsistencyCheck store cluster env).missingSecrets
          = expectedSecretNamesOf store cluster.id \ existingSecretNamesOf env ∧
      (clusterConsistencyCheck store cluster env).unexpectedSecrets
          = existingSecretNamesOf env \ expectedSecretNamesOf store cluster.id ∧
      ((clusterConsistencyCheck store cluster env).status = .Consistent ↔
        ((clusterConsistencyCheck store cluster env).missingInstances = ∅ ∧
         (clusterConsistencyCheck store cluster env).unexpectedInstances = ∅ ∧
         (clusterConsistencyCheck store cluster env).missingSecrets = ∅ ∧
         (clusterConsistencyCheck store cluster env).unexpectedSecrets = ∅)) ∧
      ((clusterConsistencyCheck store cluster env).status = .Consistent ∨
       (clusterConsistencyCheck store cluster env).status = .Inconsistent)) := by
  refine ⟨?_, ?_, ?_⟩
  · intro hping
    unfold clusterConsistencyCheck
    simp [hping]
  · intro hping hhelm
    unfold clusterConsistencyCheck
    simp [hping, hhelm]
  · intro hping hhelm
    rw [clusterConsistencyCheck_eq store cluster env hping hhelm]
    refine ⟨rfl, rfl, rfl, rfl, ?_, ?_⟩
    · show (if _ ∨ _ then ClusterConsistencyState.Inconsistent
            else if _ ∨ _ then ClusterConsistencyState.Inconsistent
            else ClusterConsistencyState.Consistent) = _ ↔ _
      split_ifs with h1 h2
      · exact iff_of_false (by decide)
          (fun hall => h1.elim (fun h => h hall.2.2.1) (fun h => h hall.2.2.2))
      · exact iff_of_false (by decide)
          (fun hall => h2.elim (fun h => h hall.1) (fun h => h hall.2.1))
      · push_neg at h1 h2
        exact iff_of_true rfl ⟨h2.1, h2.2, h1.1, h1.2⟩
    · show (if _ ∨ _ then ClusterConsistencyState.Inconsistent
            else if _ ∨ _ then ClusterConsistencyState.Inconsistent
            else ClusterConsistencyState.Consistent) = _ ∨ _
      split_ifs <;> simp

/-- C6 witness: on the populated example store with matching
observations, the check reports Consistent. -/
theorem clusterConsistency_status_correct_witness :
    (clusterConsistencyCheck exStorePopulated exCluster exEnvConsistent).status
      = ClusterConsistencyState.Consistent := by
  have h := (clusterConsistency_status_correct exStorePopulated exCluster
      exEnvConsistent).2.2 rfl rfl
  exact h.2.2.2.2.1.mpr ⟨by rw [h.1]; decide, by rw [h.2.1]; decide,
    by rw [h.2.2.1]; decide, by rw [h.2.2.2.1]; decide⟩

end Consistency

section Cascade

theorem string_append_ne_empty (c s : String) (hc : c.toList ≠ []) :
    c ++ s ≠ "" := by
  intro h
  have hlist : c.toList ++ s.toList = [] := by
    have := congrArg String.toList h
    simpa using this
  exact hc (List.append_eq_nil.mp hlist).1

/-- Every event the instance stage emits is an instance deletion. -/
theorem instanceStage_events (instOk : String → Bool) (force : Bool)
    (cid : String) :
    ∀ (l : List ApplicationInstance) (store : PersistentStore),
      ∀ e ∈ (instanceStage instOk force cid l store).2.2,
        ∃ i, e = CascadeEvent.instanceDelete i := by
  intro l
  induction l with
  | nil => intro store e he; simp [instanceStage] at he
  | cons inst rest ih =>
    intro store e he
    unfold instanceStage at he
    split at he
    · simp only [] at he
      split at he
      · simp only [List.mem_singleton] at he
        exact ⟨inst.id, he⟩
      · simp only [List.mem_cons] at he
        rcases he with he | he
        · exact ⟨inst.id, he⟩
        · exact ih _ e he
    · exact ih store e he

/-- When the instance stage aborts, its error string is nonempty. -/
theorem instanceStage_err_ne_empty (instOk : String → Bool) (force : Bool)
    (cid : String) :
    ∀ (l : List ApplicationInstance) (store : PersistentStore) (m : String),
      (instanceStage instOk force cid l store).2.1 = some m → m ≠ "" := by
  intro l
  induction l with
  | nil => intro store m hm; simp [instanceStage] at hm
  | cons inst rest ih =>
    intro store m hm
    unfold instanceStage at hm
    split at hm
    · simp only [] at hm
      split at hm
      · simp only [Option.some.injEq] at hm
        subst hm
        exact string_append_ne_empty _ _ (by decide)
      · exact ih _ m hm
    · exact ih store m hm

/-- Every event the secret stage emits is a secret deletion. -/
theorem secretStage_events (secretOk : String → Bool) :
    ∀ (l : List Secret) (store : PersistentStore),
      ∀ e ∈ (secretStage secretOk l store).2.2,
        ∃ i, e = CascadeEvent.secretDelete i := by
  intro l
  induction l with
  | nil => intro store e he; simp [secretStage] at he
  | cons sec rest ih =>
    intro store e he
    unfold secretStage at he
    simp only [List.mem_cons] at he
    rcases he with he | he
    · exact ⟨sec.id, he⟩
    · exact ih _ e he

/-- Every event the namespace stage emits is a namespace deletion. -/
theorem namespaceStage_events (groups : List Group) :
    ∀ e ∈ namespaceStage groups, ∃ n, e = CascadeEvent.namespaceDelete n := by
  intro e he
  obtain ⟨g, -, rfl⟩ := List.mem_map.mp he
  exact ⟨g.namespaceName, rfl⟩

/-- C2: the cascade's trace is staged: instance deletions first, then
all secret deletions, then all namespace deletions, and the cluster
record removal is last, present exactly when the cascade succeeds;
namespace-deletion failures never influence the cascade's outcome. -/
theorem deleteCluster_cascade_stage_order (env : CascadeEnv)
    (store : PersistentStore) (cluster : Cluster) (force : Bool) :
    (∀ nsOk, internalDeleteCluster { env with nsDeleteOk := nsOk }
        store cluster force
      = internalDeleteCluster env store cluster force) ∧
    ∃ ti ts tn tr,
      (internalDeleteCluster env store cluster force).2.2
        = ti ++ ts ++ tn ++ tr ∧
      (∀ e ∈ ti, ∃ i, e = CascadeEvent.instanceDelete i) ∧
      (∀ e ∈ ts, ∃ i, e = CascadeEvent.secretDelete i) ∧
      (∀ e ∈ tn, ∃ n, e = CascadeEvent.namespaceDelete n) ∧
      ((internalDeleteCluster env store cluster force).2.1 = "" →
        tr = [CascadeEvent.clusterRemove cluster.id]) ∧
      ((internalDeleteCluster env store cluster force).2.1 ≠ "" → tr = []) := by
  refine ⟨fun _ => rfl, ?_⟩
  unfold internalDeleteCluster
  dsimp only []
  cases h1 : (instanceStage env.instHelmOk force cluster.id
      store.listApplicationInstances store).2.1 with
  | some err =>
    refine ⟨(instanceStage env.instHelmOk force cluster.id
        store.listApplicationInstances store).2.2, [], [], [], by simp,
      instanceStage_events _ _ _ _ _, by simp, by simp, ?_, fun _ => rfl⟩
    intro hempty
    exact absurd hempty
      (instanceStage_err_ne_empty _ _ _ _ _ err h1)
  | none =>
    cases force with
    | true =>
      cases hrm : env.removeClusterOk with
      | true =>
        refine ⟨(instanceStage env.instHelmOk true cluster.id
            store.listApplicationInstances store).2.2,
          (secretStage env.secretKubeOk
            ((instanceStage env.instHelmOk true cluster.id
                store.listApplicationInstances store).1.listSecrets cluster.id)
            (instanceStage env.instHelmOk true cluster.id
                store.listApplicationInstances store).1).2.2,
          namespaceStage (secretStage env.secretKubeOk
            ((instanceStage env.instHelmOk true cluster.id
                store.listApplicationInstances store).1.listSecrets cluster.id)
            (instanceStage env.instHelmOk true cluster.id
                store.listApplicationInstances store).1).1.listgroups,
          [CascadeEvent.clusterRemove cluster.id],
          by simp, instanceStage_events _ _ _ _ _, secretStage_events _ _ _,
          namespaceStage_events _, fun _ => rfl, fun hne => absurd rfl hne⟩
      | false =>
        refine ⟨(instanceStage env.instHelmOk true cluster.id
            store.listApplicationInstances store).2.2,
          (secretStage env.secretKubeOk
            ((instanceStage env.instHelmOk true cluster.id
                store.listApplicationInstances store).1.listSecrets cluster.id)
            (instanceStage env.instHelmOk true cluster.id
                store.listApplicationInstances store).1).2.2,
          namespaceStage (secretStage env.secretKubeOk
            ((instanceStage env.instHelmOk true cluster.id
                store.listApplicationInstances store).1.listSecrets cluster.id)
            (instanceStage env.instHelmOk true cluster.id
                store.listApplicationInstances store).1).1.listgroups,
          [],
          by simp, instanceStage_events _ _ _ _ _, secretStage_events _ _ _,
          namespaceStage_events _, ?_, fun _ => rfl⟩
        intro hempty
        exact absurd (show "Cluster deletion failed" = "" from hempty)
          (by decide)
    | false =>
      cases h2 : ((secretStage env.secretKubeOk
          ((instanceStage env.instHelmOk false cluster.id
              store.listApplicationInstances store).1.listSecrets cluster.id)
          (instanceStage env.instHelmOk false cluster.id
              store.listApplicationInstances store).1).2.1.filter
            (fun x => x ≠ "")).head? with
      | some err2 =>
        refine ⟨(instanceStage env.instHelmOk false cluster.id
            store.listApplicationInstances store).2.2,
          (secretStage env.secretKubeOk
            ((instanceStage env.instHelmOk false cluster.id
                store.listApplicationInstances store).1.listSecrets cluster.id)
            (instanceStage env.instHelmOk false cluster.id
                store.listApplicationInstances store).1).2.2,
          [], [],
          by simp, instanceStage_events _ _ _ _ _, secretStage_events _ _ _,
          by simp, ?_, fun _ => rfl⟩
        intro hempty
        exact absurd hempty (string_append_ne_empty _ _ (by decide))
      | none =>
        cases hrm : env.removeClusterOk with
        | true =>
          refine ⟨(instanceStage env.instHelmOk false cluster.id
              store.listApplicationInstances store).2.2,
            (secretStage env.secretKubeOk
              ((instanceStage env.instHelmOk false cluster.id
                  store.listApplicationInstances store).1.listSecrets cluster.id)
              (instanceStage env.instHelmOk false cluster.id
                  store.listApplicationInstances store).1).2.2,
            namespaceStage (secretStage env.secretKubeOk
              ((instanceStage env.instHelmOk false cluster.id
                  store.listApplicationInstances store).1.listSecrets cluster.id)
              (instanceStage env.instHelmOk false cluster.id
                  store.listApplicationInstances store).1).1.listgroups,
            [CascadeEvent.clusterRemove cluster.id],
            by simp, instanceStage_events _ _ _ _ _, secretStage_events _ _ _,
            namespaceStage_events _, fun _ => rfl, fun hne => absurd rfl hne⟩
        | false =>
          refine ⟨(instanceStage env.instHelmOk false cluster.id
              store.listApplicationInstances store).2.2,
            (secretStage env.secretKubeOk
              ((instanceStage env.instHelmOk false cluster.id
                  store.listApplicationInstances store).1.listSecrets cluster.id)
              (instanceStage env.instHelmOk false cluster.id
                  store.listApplicationInstances store).1).2.2,
            namespaceStage (secretStage env.secretKubeOk
              ((instanceStage env.instHelmOk false cluster.id
                  store.listApplicationInstances store).1.listSecrets cluster.id)
              (instanceStage env.instHelmOk false cluster.id
                  store.listApplicationInstances store).1).1.listgroups,
            [],
            by simp, instanceStage_events _ _ _ _ _, secretStage_events _ _ _,
            namespaceStage_events _, ?_, fun _ => rfl⟩
          intro hempty
          exact absurd (show "Cluster deletion failed" = "" from hempty)
            (by decide)

/-- C2 witness: the staged decomposition at a concrete forced deletion
on the populated example store. -/
theorem deleteCluster_cascade_stage_order_witness :
    ∃ ti ts tn tr,
      (internalDeleteCluster exEnvCascade exStorePopulated exCluster true).2.2
        = ti ++ ts ++ tn ++ tr ∧
      (∀ e ∈ ti, ∃ i, e = CascadeEvent.instanceDelete i) ∧
      (∀ e ∈ ts, ∃ i, e = CascadeEvent.secretDelete i) ∧
      (∀ e ∈ tn, ∃ n, e = CascadeEvent.namespaceDelete n) ∧
      ((internalDeleteCluster exEnvCascade exStorePopulated exCluster true).2.1
          = "" → tr = [CascadeEvent.clusterRemove exCluster.id]) ∧
      ((internalDeleteCluster exEnvCascade exStorePopulated exCluster true).2.1
          ≠ "" → tr = []) :=
  (deleteCluster_cascade_stage_order exEnvCascade exStorePopulated
    exCluster true).2

/-- The instance-deletion model leaves clusters, secrets and groups
untouched. -/
theorem deleteApplicationInstance_frame (instOk : String → Bool)
    (s : PersistentStore) (inst : ApplicationInstance) (force : Bool) :
    (deleteApplicationInstance instOk s inst force).1.clusters = s.clusters ∧
    (deleteApplicationInstance instOk s inst force).1.secrets = s.secrets ∧
    (deleteApplicationInstance instOk s inst force).1.groups = s.groups := by
  unfold deleteApplicationInstance
  split
  · exact ⟨rfl, rfl, rfl⟩
  · split
    · exact ⟨rfl, rfl, rfl⟩
    · exact ⟨rfl, rfl, rfl⟩

/-- The instance-deletion model only removes instance records. -/
theorem deleteApplicationInstance_instances_subset (instOk : String → Bool)
    (s : PersistentStore) (inst : ApplicationInstance) (force : Bool) :
    ∀ k ∈ (deleteApplicationInstance instOk s inst force).1.instances,
      k ∈ s.instances := by
  unfold deleteApplicationInstance
  split
  · intro k hk
    exact List.mem_of_mem_filter hk
  · split
    · intro k hk
      exact List.mem_of_mem_filter hk
    · intro k hk
      exact hk

/-- The instance stage leaves clusters, secrets and groups untouched. -/
theorem instanceStage_frame (instOk : String → Bool) (force : Bool)
    (cid : String) :
    ∀ (l : List ApplicationInstance) (s : PersistentStore),
      (instanceStage instOk force cid l s).1.clusters = s.clusters ∧
      (instanceStage instOk force cid l s).1.secrets = s.secrets ∧
      (instanceStage instOk force cid l s).1.groups = s.groups := by
  intro l
  induction l with
  | nil => intro s; exact ⟨rfl, rfl, rfl⟩
  | cons inst rest ih =>
    intro s
    unfold instanceStage
    split
    · dsimp only []
      split
      · exact deleteApplicationInstance_frame instOk s inst force
      · obtain ⟨hA, hB, hC⟩ :=
          ih (deleteApplicationInstance instOk s inst force).1
        obtain ⟨hA2, hB2, hC2⟩ :=
          deleteApplicationInstance_frame instOk s inst force
        exact ⟨hA.trans hA2, hB.trans hB2, hC.trans hC2⟩
    · exact ih s

/-- Instance records never appear from nowhere during the stage. -/
theorem instanceStage_instances_subset (instOk : String → Bool) (force : Bool)
    (cid : String) :
    ∀ (l : List ApplicationInstance) (s : PersistentStore),
      ∀ k ∈ (instanceStage instOk force cid l s).1.instances,
        k ∈ s.instances := by
  intro l
  induction l with
  | nil => intro s k hk; exact hk
  | cons inst rest ih =>
    intro s k hk
    unfold instanceStage at hk
    split at hk
    · dsimp only [] at hk
      split at hk
      · exact deleteApplicationInstance_instances_subset instOk s inst force k hk
      · exact deleteApplicationInstance_instances_subset instOk s inst force k
          (ih _ k hk)
    · exact ih s k hk

/-- With `force`, the instance stage never aborts. -/
theorem instanceStage_force_no_abort (instOk : String → Bool) (cid : String) :
    ∀ (l : List ApplicationInstance) (s : PersistentStore),
      (instanceStage instOk true cid l s).2.1 = none := by
  intro l
  induction l with
  | nil => intro s; rfl
  | cons inst rest ih =>
    intro s
    unfold instanceStage
    split
    · exact ih _
    · exact ih s

/-- With `force`, every instance of the cluster that appears in the
iterated list is removed: no surviving record carries its ID. -/
theorem instanceStage_removes (instOk : String → Bool) (cid : String) :
    ∀ (l : List ApplicationInstance) (s : PersistentStore)
      (j : ApplicationInstance), j ∈ l → j.cluster = cid →
      ∀ k ∈ (instanceStage instOk true cid l s).1.instances, k.id ≠ j.id := by
  intro l
  induction l with
  | nil => intro s j hj; exact absurd hj (List.not_mem_nil j)
  | cons inst rest ih =>
    intro s j hj hjc k hk
    rcases List.mem_cons.mp hj with rfl | hjrest
    · unfold instanceStage at hk
      rw [if_pos hjc] at hk
      dsimp only [] at hk
      rw [if_neg (by simp)] at hk
      have hk' : k ∈ (deleteApplicationInstance instOk s j true).1.instances :=
        instanceStage_instances_subset instOk true cid rest _ k hk
      unfold deleteApplicationInstance at hk'
      split at hk'
      · simpa using (List.mem_filter.mp hk').2
      · split at hk'
        · simpa using (List.mem_filter.mp hk').2
        · exact absurd rfl (by assumption)
    · unfold instanceStage at hk
      split at hk
      · dsimp only [] at hk
        rw [if_neg (by simp)] at hk
        exact ih _ j hjrest hjc k hk
      · exact ih s j hjrest hjc k hk

/-- Without `force`, a failing instance deletion somewhere in the list
makes the stage abort with an error. -/
theorem instanceStage_abort_of_fail (instOk : String → Bool) (cid : String) :
    ∀ (l : List ApplicationInstance) (s : PersistentStore),
      (∃ j ∈ l, j.cluster = cid ∧ instOk j.id = false) →
      ∃ m, (instanceStage instOk false cid l s).2.1 = some m := by
  intro l
  induction l with
  | nil => rintro s ⟨j, hj, -⟩; exact absurd hj (List.not_mem_nil j)
  | cons inst rest ih =>
    rintro s ⟨j, hj, hjc, hjfail⟩
    unfold instanceStage
    rcases List.mem_cons.mp hj with rfl | hjrest
    · rw [if_pos hjc]
      dsimp only []
      have hr : deleteApplicationInstance instOk s j false
          = (s, "helm delete failed") := by
        unfold deleteApplicationInstance
        rw [if_neg (by simp [hjfail]), if_neg (by simp)]
      rw [hr]
      have hcond : (!false && decide (("helm delete failed" : String) ≠ ""))
          = true := by decide
      rw [if_pos hcond]
      exact ⟨_, rfl⟩
    · split
      · dsimp only []
        split
        · exact ⟨_, rfl⟩
        · exact ih _ ⟨j, hjrest, hjc, hjfail⟩
      · exact ih s ⟨j, hjrest, hjc, hjfail⟩

/-- The secret-deletion model leaves clusters, instances and groups
untouched. -/
theorem deleteSecret_frame (secretOk : String → Bool) (s : PersistentStore)
    (sec : Secret) (force : Bool) :
    (deleteSecret secretOk s sec force).1.clusters = s.clusters ∧
    (deleteSecret secretOk s sec force).1.instances = s.instances ∧
    (deleteSecret secretOk s sec force).1.groups = s.groups := by
  unfold deleteSecret
  split
  · exact ⟨rfl, rfl, rfl⟩
  · split
    · exact ⟨rfl, rfl, rfl⟩
    · exact ⟨rfl, rfl, rfl⟩

/-- The secret stage leaves clusters, instances and groups untouched. -/
theorem secretStage_frame (secretOk : String → Bool) :
    ∀ (l : List Secret) (s : PersistentStore),
      (secretStage secretOk l s).1.clusters = s.clusters ∧
      (secretStage secretOk l s).1.instances = s.instances ∧
      (secretStage secretOk l s).1.groups = s.groups := by
  intro l
  induction l with
  | nil => intro s; exact ⟨rfl, rfl, rfl⟩
  | cons sec rest ih =>
    intro s
    unfold secretStage
    obtain ⟨hA, hB, hC⟩ := ih (deleteSecret secretOk s sec true).1
    obtain ⟨hA2, hB2, hC2⟩ := deleteSecret_frame secretOk s sec true
    exact ⟨hA.trans hA2, hB.trans hB2, hC.trans hC2⟩

/-- Secret records never appear from nowhere during the stage. -/
theorem secretStage_secrets_subset (secretOk : String → Bool) :
    ∀ (l : List Secret) (s : PersistentStore),
      ∀ k ∈ (secretStage secretOk l s).1.secrets, k ∈ s.secrets := by
  intro l
  induction l with
  | nil => intro s k hk; exact hk
  | cons sec rest ih =>
    intro s k hk
    unfold secretStage at hk
    have hk' : k ∈ (deleteSecret secretOk s sec true).1.secrets := ih _ k hk
    unfold deleteSecret at hk'
    split at hk'
    · exact List.mem_of_mem_filter hk'
    · split at hk'
      · exact List.mem_of_mem_filter hk'
      · exact hk'

/-- Every secret dispatched to the stage (always with inner `force`) is
removed: no surviving record carries its ID. -/
theorem secretStage_removes (secretOk : String → Bool) :
    ∀ (l : List Secret) (s : PersistentStore) (j : Secret), j ∈ l →
      ∀ k ∈ (secretStage secretOk l s).1.secrets, k.id ≠ j.id := by
  intro l
  induction l with
  | nil => intro s j hj; exact absurd hj (List.not_mem_nil j)
  | cons sec rest ih =>
    intro s j hj k hk
    rcases List.mem_cons.mp hj with rfl | hjrest
    · unfold secretStage at hk
      have hk' : k ∈ (deleteSecret secretOk s j true).1.secrets :=
        secretStage_secrets_subset secretOk rest _ k hk
      unfold deleteSecret at hk'
      split at hk'
      · simpa using (List.mem_filter.mp hk').2
      · split at hk'
        · simpa using (List.mem_filter.mp hk').2
        · exact absurd rfl (by assumption)
    · unfold secretStage at hk
      exact ih _ j hjrest k hk

/-- C4: deleting a cluster that still has surviving Instances: with
`force = false` a per-instance helm deletion failure aborts the cascade
with an error response (500) and the cluster record is not removed; with
`force = true` the request returns 200 and the cluster record, its
Instances and its Secrets are all gone from the store despite the helm
failures. -/
theorem deleteCluster_force_semantics (env : CascadeEnv)
    (store : PersistentStore) (user : User) (clusterID : String)
    (cluster : Cluster)
    (hval : user.valid = true)
    (hmem : store.userInGroup user.id cluster.owningGroup = true)
    (hc : store.getCluster clusterID = some cluster) :
    ((∃ j ∈ store.instances, j.cluster = cluster.id
        ∧ env.instHelmOk j.id = false) →
      (deleteClusterHandler env store user clusterID false).2.1 = 500 ∧
      (deleteClusterHandler env store user clusterID false).1.getCluster
        clusterID = some cluster) ∧
    (env.removeClusterOk = true →
      (deleteClusterHandler env store user clusterID true).2.1 = 200 ∧
      (deleteClusterHandler env store user clusterID true).1.getCluster
        clusterID = none ∧
      (∀ k ∈ (deleteClusterHandler env store user clusterID true).1.instances,
        k.cluster ≠ cluster.id) ∧
      (∀ k ∈ (deleteClusterHandler env store user clusterID true).1.secrets,
        k.cluster ≠ cluster.id)) := by
  have hcid : cluster.id = clusterID := by
    have := List.find?_some hc
    simpa using this
  have hhandler : ∀ force, deleteClusterHandler env store user clusterID force
      = (if (internalDeleteCluster env store cluster force).2.1 ≠ "" then
          ((internalDeleteCluster env store cluster force).1, 500,
           (internalDeleteCluster env store cluster force).2.2)
        else
          ((internalDeleteCluster env store cluster force).1, 200,
           (internalDeleteCluster env store cluster force).2.2)) := by
    intro force
    unfold deleteClusterHandler
    rw [hc]
    simp [hval, hmem]
  constructor
  · intro hfail
    obtain ⟨m, hm⟩ := instanceStage_abort_of_fail env.instHelmOk cluster.id
      store.listApplicationInstances store hfail
    have hmne : m ≠ "" :=
      instanceStage_err_ne_empty env.instHelmOk false cluster.id
        store.listApplicationInstances store m hm
    have hint : internalDeleteCluster env store cluster false
        = ((instanceStage env.instHelmOk false cluster.id
              store.listApplicationInstances store).1, m,
           (instanceStage env.instHelmOk false cluster.id
              store.listApplicationInstances store).2.2) := by
      unfold internalDeleteCluster
      dsimp only []
      rw [hm]
    rw [hhandler false, hint]
    refine ⟨by simp [hmne], ?_⟩
    simp only [if_pos (by simpa using hmne)]
    show (instanceStage env.instHelmOk false cluster.id
        store.listApplicationInstances store).1.getCluster clusterID
      = some cluster
    unfold PersistentStore.getCluster
    rw [(instanceStage_frame env.instHelmOk false cluster.id
      store.listApplicationInstances store).1]
    exact hc
  · intro hrm
    have h1 : (instanceStage env.instHelmOk true cluster.id
        store.listApplicationInstances store).2.1 = none :=
      instanceStage_force_no_abort env.instHelmOk cluster.id
        store.listApplicationInstances store
    have hint : internalDeleteCluster env store cluster true
        = ((secretStage env.secretKubeOk
              ((instanceStage env.instHelmOk true cluster.id
                  store.listApplicationInstances store).1.listSecrets
                cluster.id)
              (instanceStage env.instHelmOk true cluster.id
                  store.listApplicationInstances store).1).1.removeCluster
             cluster.id, "",
           ((instanceStage env.instHelmOk true cluster.id
              store.listApplicationInstances store).2.2 ++
            (secretStage env.secretKubeOk
              ((instanceStage env.instHelmOk true cluster.id
                  store.listApplicationInstances store).1.listSecrets
                cluster.id)
              (instanceStage env.instHelmOk true cluster.id
                  store.listApplicationInstances store).1).2.2 ++
            namespaceStage (secretStage env.secretKubeOk
              ((instanceStage env.instHelmOk true cluster.id
                  store.listApplicationInstances store).1.listSecrets
                cluster.id)
              (instanceStage env.instHelmOk true cluster.id
                  store.listApplicationInstances store).1).1.listgroups)
            ++ [CascadeEvent.clusterRemove cluster.id]) := by
      unfold internalDeleteCluster
      dsimp only []
      rw [h1, hrm]
      rfl
    rw [hhandler true, hint]
    simp only [ne_eq, not_true_eq_false, if_neg, not_false_eq_true,
      if_false]
    refine ⟨trivial, ?_, ?_, ?_⟩
    · show (PersistentStore.removeCluster _ cluster.id).getCluster clusterID
        = none
      unfold PersistentStore.getCluster PersistentStore.removeCluster
      rw [List.find?_eq_none]
      intro x hx
      have := (List.mem_filter.mp hx).2
      simp only [decide_eq_true_eq] at this ⊢
      rw [← hcid]
      exact this
    · intro k hk hkc
      have hk1 : k ∈ (instanceStage env.instHelmOk true cluster.id
          store.listApplicationInstances store).1.instances := by
        have hframe := (secretStage_frame env.secretKubeOk
          ((instanceStage env.instHelmOk true cluster.id
              store.listApplicationInstances store).1.listSecrets cluster.id)
          (instanceStage env.instHelmOk true cluster.id
              store.listApplicationInstances store).1).2.1
        rw [← hframe]
        exact hk
      have hkin : k ∈ store.instances :=
        instanceStage_instances_subset env.instHelmOk true cluster.id
          store.listApplicationInstances store k hk1
      exact instanceStage_removes env.instHelmOk cluster.id
        store.listApplicationInstances store k hkin hkc k hk1 rfl
    · intro k hk hkc
      have hk1 : k ∈ (instanceStage env.instHelmOk true cluster.id
          store.listApplicationInstances store).1.secrets :=
        secretStage_secrets_subset env.secretKubeOk
          ((instanceStage env.instHelmOk true cluster.id
              store.listApplicationInstances store).1.listSecrets cluster.id)
          (instanceStage env.instHelmOk true cluster.id
              store.listApplicationInstances store).1 k hk
      have hklisted : k ∈ (instanceStage env.instHelmOk true cluster.id
          store.listApplicationInstances store).1.listSecrets cluster.id := by
        unfold PersistentStore.listSecrets
        rw [List.mem_filter]
        exact ⟨hk1, by simpa using hkc⟩
      exact secretStage_removes env.secretKubeOk
        ((instanceStage env.instHelmOk true cluster.id
            store.listApplicationInstances store).1.listSecrets cluster.id)
        (instanceStage env.instHelmOk true cluster.id
            store.listApplicationInstances store).1 k hklisted k hk rfl

/-- C4 witness: on the populated example store with failing helm
deletions, the unforced request yields 500 with the record kept, and the
forced request yields 200 with cluster, instances and secrets gone. -/
theorem deleteCluster_force_semantics_witness :
    ((deleteClusterHandler exEnvCascade exStorePopulated exAdmin "cluster_c1"
        false).2.1 = 500 ∧
     (deleteClusterHandler exEnvCascade exStorePopulated exAdmin "cluster_c1"
        false).1.getCluster "cluster_c1" = some exCluster) ∧
    ((deleteClusterHandler exEnvCascade exStorePopulated exAdmin "cluster_c1"
        true).2.1 = 200 ∧
     (deleteClusterHandler exEnvCascade exStorePopulated exAdmin "cluster_c1"
        true).1.getCluster "cluster_c1" = none ∧
     (∀ k ∈ (deleteClusterHandler exEnvCascade exStorePopulated exAdmin
        "cluster_c1" true).1.instances, k.cluster ≠ exCluster.id) ∧
     (∀ k ∈ (deleteClusterHandler exEnvCascade exStorePopulated exAdmin
        "cluster_c1" true).1.secrets, k.cluster ≠ exCluster.id)) := by
  have h := deleteCluster_force_semantics exEnvCascade exStorePopulated
    exAdmin "cluster_c1" exCluster rfl (by decide) (by decide)
  exact ⟨h.1 ⟨⟨"instance_i1", "owners-app1", "group_own", "cluster_c1"⟩,
    by decide, by decide, rfl⟩, h.2 rfl⟩

end Cascade

section Bootstrap

/-- One scan of the stuck pod listing never reports tiller ready. -/
theorem scanPodLines_stuck :
    scanPodLines (string_split_lines exPodsStuck.output) = false := by decide

/-- The readiness poll against the stuck cluster returns false at every
fuel and iteration: it runs into its deadline without success. -/
theorem tillerPoll_stuck : ∀ fuel i,
    tillerPoll exEnvBootStuck.pods fuel i = false := by
  intro fuel
  induction fuel with
  | zero => intro i; rfl
  | succ n ih =>
    intro i
    unfold tillerPoll
    rw [show exEnvBootStuck.pods i = exPodsStuck from rfl]
    rw [if_neg (by decide), if_neg (by decide)]
    split
    · exact ih (i + 1)
    · rfl

/-- C1 (code slip): when every bootstrap check up to helm-init passes
but the tiller pod never becomes ready, the readiness poll times out —
yet `createCluster` still returns the 200 success response and the
tentatively-created cluster record remains in the store, instead of the
record being removed and BootstrapFailed surfaced. -/
theorem createCluster_tiller_timeout_returns_success_and_keeps_record :
    tillerPollRun exEnvBootStuck.pods = false ∧
    (createClusterBootstrap exEnvBootStuck exStoreGuestAccess
      exCluster).status = 200 ∧
    (createClusterBootstrap exEnvBootStuck exStoreGuestAccess
      exCluster).store.getCluster "cluster_c1" = some exCluster := by
  refine ⟨tillerPoll_stuck 241 0, ?_, ?_⟩
  · decide
  · decide

end Bootstrap

end Slate
